import Mathlib

/-!
Shallow embedding of the movies-api Express application
(`src/app.js` together with the MySQL pool of `src/db.js`).

JavaScript request and response values are modelled by `JVal`; a JSON
object is an association list in which a later entry for a key overrides
an earlier one, exactly as in a JS object literal with spread. The
`movies` table is a list of rows plus the AUTO_INCREMENT counter. The
driver-level outcome of a query is threaded through each handler as an
`Option String`: `some msg` means the query raised an error whose
`message` is `msg`, `none` means the query succeeded.
-/

namespace MoviesApi

/-- A scalar JavaScript value as it occurs in request bodies, SQL bind
parameters and JSON responses. `undef` is JavaScript `undefined`, the
value a destructured field has when it is absent from the request body. -/
inductive JVal where
  | null
  | undef
  | bool (b : Bool)
  | num (n : Int)
  | str (s : String)
deriving Repr, DecidableEq

/-- A JavaScript object: an association list in which, as in a JS object
literal with spread, a later entry for a key overrides an earlier one. -/
abbrev Obj := List (String × JVal)

/-- Field lookup in an object: the last entry for the key wins; a missing
key reads as `undefined`, as with JS property access and destructuring. -/
def objGet (o : Obj) (k : String) : JVal :=
  match (o.filter (fun p => p.1 == k)).getLast? with
  | some p => p.2
  | none => JVal.undef

/-- JS truthiness of a scalar value: `undefined`, `null`, `false`, `0`
and the empty string are falsy, everything else is truthy. -/
def truthy : JVal → Bool
  | JVal.null => false
  | JVal.undef => false
  | JVal.bool b => b
  | JVal.num n => n != 0
  | JVal.str s => s != ""

/-- JavaScript `a || b`: the value of `a` when `a` is truthy, else the
value of `b`. -/
def jsOr (a b : JVal) : JVal := if truthy a then a else b

/-- mysql2 escaping of a bound parameter: JavaScript `undefined`, like
`null`, is escaped as SQL `NULL`; other scalar values are stored as
themselves. -/
def sqlVal : JVal → JVal
  | JVal.undef => JVal.null
  | v => v

/-- One row of the `movies` table; the columns follow the `Movie` schema
(spec section 3, Swagger component at src/app.js lines 22-62). -/
structure Row where
  id : Nat
  title_file : JVal
  disk : JVal
  file : JVal
  sub_file : JVal
  type_file : JVal
  size : JVal
  is_new : JVal
deriving Repr, DecidableEq

/-- The `movies` table together with its AUTO_INCREMENT counter. -/
structure DB where
  rows : List Row
  nextId : Nat
deriving Repr, DecidableEq

/-- AUTO_INCREMENT invariant: every id already stored is below the
counter, so a freshly generated id is distinct from all stored ids. -/
def DB.wf (db : DB) : Prop := ∀ r ∈ db.rows, r.id < db.nextId

/-- Decimal digit value of a character, `none` for a non-digit. -/
def digitVal (c : Char) : Option Nat :=
  if '0' ≤ c ∧ c ≤ '9' then some (c.toNat - '0'.toNat) else none

/-- Reads a run of decimal digits, most significant first, extending the
accumulator; fails on the first non-digit. -/
def parseDecAux : List Char → Nat → Option Nat
  | [], n => some n
  | c :: cs, n =>
    match digitVal c with
    | some d => parseDecAux cs (n * 10 + d)
    | none => none

/-- MySQL coercion of the bound string route parameter when it evaluates
`WHERE id = ?` against the integer `id` column: the parameter text is
read as a decimal numeral (leading zeros allowed). A parameter that is
not a decimal numeral matches no row. -/
def parseDec (s : String) : Option Nat :=
  if s.data = [] then none else parseDecAux s.data 0

/-- Whether a row satisfies `id = ?` with the bound string `param`. -/
def idMatches (param : String) (r : Row) : Bool :=
  parseDec param == some r.id

/-- The query `SELECT * FROM movies` (src/app.js line 116). -/
def DB.selectAll (db : DB) : List Row := db.rows

/-- The query `SELECT * FROM movies WHERE id = ?` (line 148). -/
def DB.selectById (db : DB) (param : String) : List Row :=
  db.rows.filter (idMatches param)

/-- The `INSERT INTO movies` statement of line 186: appends a row under
the AUTO_INCREMENT id, bumps the counter, and reports the generated id as
`insertId`. -/
def DB.insertMovie (db : DB) (t d f sf tf sz inew : JVal) : Nat × DB :=
  (db.nextId,
   { rows := db.rows ++
       [{ id := db.nextId, title_file := sqlVal t, disk := sqlVal d,
          file := sqlVal f, sub_file := sqlVal sf, type_file := sqlVal tf,
          size := sqlVal sz, is_new := sqlVal inew }],
     nextId := db.nextId + 1 })

/-- The `UPDATE movies SET ... WHERE id = ?` statement of line 229: it
overwrites the seven non-id columns of every matching row and reports
`affectedRows`. `affectedRows` is modelled as the number of matched rows;
MySQL's default connection flags report changed rows instead, which
differs only when an update writes values identical to the stored ones —
no claim below depends on that distinction. -/
def DB.updateById (db : DB) (param : String) (t d f sf tf sz inew : JVal) :
    Nat × DB :=
  (db.rows.countP (idMatches param),
   { db with rows := db.rows.map (fun r =>
       if idMatches param r then
         { id := r.id, title_file := sqlVal t, disk := sqlVal d,
           file := sqlVal f, sub_file := sqlVal sf, type_file := sqlVal tf,
           size := sqlVal sz, is_new := sqlVal inew }
       else r) })

/-- The `DELETE FROM movies WHERE id = ?` statement of line 262: removes
every matching row and reports `affectedRows`. -/
def DB.deleteById (db : DB) (param : String) : Nat × DB :=
  (db.rows.countP (idMatches param),
   { db with rows := db.rows.filter (fun r => !idMatches param r) })

/-- A response body: a JSON object, a JSON array of objects, or (for the
swagger middleware) an HTML page identified by a marker string. -/
inductive RBody where
  | obj (o : Obj)
  | arr (xs : List Obj)
  | html (s : String)
deriving Repr, DecidableEq

/-- An HTTP response: status code and body. -/
structure Response where
  status : Nat
  body : RBody
deriving Repr, DecidableEq

/-- Reads a field of an object response body; non-object bodies have no
fields. -/
def respField (resp : Response) (k : String) : JVal :=
  match resp.body with
  | RBody.obj o => objGet o k
  | _ => JVal.undef

/-- `res.json(row)`: a stored row serialized back to JSON — `SELECT *`
returns all eight columns. -/
def rowToObj (r : Row) : Obj :=
  [("id", JVal.num r.id), ("title_file", r.title_file), ("disk", r.disk),
   ("file", r.file), ("sub_file", r.sub_file), ("type_file", r.type_file),
   ("size", r.size), ("is_new", r.is_new)]

/-- The catch-block response every handler produces on a driver error:
status 500 with the error message under the `error` key. -/
def errorResponse (msg : String) : Response :=
  { status := 500, body := RBody.obj [("error", JVal.str msg)] }

/-- The 404 response of the by-id handlers: message `Film non trouvé`. -/
def notFoundMovie : Response :=
  { status := 404, body := RBody.obj [("message", JVal.str "Film non trouvé")] }

/-- Handler of `app.get("/movies")`, src/app.js lines 114-121. -/
def getMovies (db : DB) (err : Option String) : Response × DB :=
  match err with
  | some m => (errorResponse m, db)
  | none =>
    ({ status := 200, body := RBody.arr (db.selectAll.map rowToObj) }, db)

/-- Handler of `app.get("/movies/:id")`, lines 146-159: 404 when the
select returns zero rows, otherwise the first returned row as JSON. -/
def getMovieById (param : String) (db : DB) (err : Option String) :
    Response × DB :=
  match err with
  | some m => (errorResponse m, db)
  | none =>
    match db.selectById param with
    | [] => (notFoundMovie, db)
    | r :: _ => ({ status := 200, body := RBody.obj (rowToObj r) }, db)

/-- Handler of `app.post("/movies")`, lines 181-193: destructures the
seven fields from the body, inserts them with `is_new || false`, and
responds 201 with the object literal spreading the request body after the
generated id. -/
def postMovie (body : Obj) (db : DB) (err : Option String) : Response × DB :=
  match err with
  | some m => (errorResponse m, db)
  | none =>
    let ins := db.insertMovie (objGet body "title_file") (objGet body "disk")
      (objGet body "file") (objGet body "sub_file") (objGet body "type_file")
      (objGet body "size") (jsOr (objGet body "is_new") (JVal.bool false))
    ({ status := 201, body := RBody.obj (("id", JVal.num ins.1) :: body) },
     ins.2)

/-- Handler of `app.put("/movies/:id")`, lines 224-240: runs the update,
responds 404 on zero affected rows, otherwise 200 with the object literal
spreading the request body after the raw path parameter as `id`. -/
def putMovie (param : String) (body : Obj) (db : DB) (err : Option String) :
    Response × DB :=
  match err with
  | some m => (errorResponse m, db)
  | none =>
    let upd := db.updateById param (objGet body "title_file")
      (objGet body "disk") (objGet body "file") (objGet body "sub_file")
      (objGet body "type_file") (objGet body "size") (objGet body "is_new")
    if upd.1 = 0 then (notFoundMovie, upd.2)
    else ({ status := 200, body := RBody.obj (("id", JVal.str param) :: body) },
          upd.2)

/-- Handler of `app.delete("/movies/:id")`, lines 260-273. -/
def deleteMovie (param : String) (db : DB) (err : Option String) :
    Response × DB :=
  match err with
  | some m => (errorResponse m, db)
  | none =>
    let del := db.deleteById param
    if del.1 = 0 then (notFoundMovie, del.2)
    else ({ status := 200,
            body := RBody.obj [("message", JVal.str "Film supprimé avec succès")] },
          del.2)

/-- An incoming HTTP request. -/
structure Request where
  method : String
  path : String
  body : Obj
deriving Repr, DecidableEq

/-- The response of the catch-all middleware for undefined routes,
src/app.js lines 276-278. -/
def routeNotFound : Response :=
  { status := 404, body := RBody.obj [("message", JVal.str "Route non trouvée")] }

/-- Strips `pre` from the front of `l`; `none` when `pre` is not a front
segment of `l`. -/
def stripFront : List Char → List Char → Option (List Char)
  | [], rest => some rest
  | _ :: _, [] => none
  | c :: cs, d :: ds => if c = d then stripFront cs ds else none

/-- Route-parameter extraction for the `"/movies/:id"` pattern: exactly
one further nonempty path segment after `/movies/`. -/
def movieIdParam (path : String) : Option String :=
  match stripFront "/movies/".data path.data with
  | some rest =>
    if rest ≠ [] ∧ ¬ rest.contains '/' then some (String.mk rest) else none
  | none => none

/-- The five movie routes followed by the catch-all middleware, in
registration order (src/app.js lines 114-278). -/
def routesDispatch (req : Request) (db : DB) (err : Option String) :
    Response × DB :=
  if req.method = "GET" ∧ req.path = "/movies" then getMovies db err
  else if req.method = "POST" ∧ req.path = "/movies" then
    postMovie req.body db err
  else
    match movieIdParam req.path with
    | some param =>
      if req.method = "GET" then getMovieById param db err
      else if req.method = "PUT" then putMovie param req.body db err
      else if req.method = "DELETE" then deleteMovie param db err
      else (routeNotFound, db)
    | none => (routeNotFound, db)

/-- Modelled from the spec: section 6's generated API documentation
"served at the service root" by the external swagger-ui middleware chain
that src/app.js line 89 mounts with `app.use("/", swaggerUi.serve,
swaggerUi.setup(swaggerDocs))`; the middleware's own source is not part
of this repository. `serve` answers GET/HEAD requests for its static
assets (the asset set is the parameter `isAsset`) and passes through
otherwise; `setup` sends the generated UI page to every request that
reaches it, so the chain answers every request and never falls through. -/
def swaggerChain (isAsset : String → Bool) (req : Request) : Option Response :=
  if (req.method = "GET" ∨ req.method = "HEAD") ∧ isAsset req.path then
    some { status := 200, body := RBody.html "swagger-ui-static-asset" }
  else
    some { status := 200, body := RBody.html "swagger-ui-page" }

/-- The application's middleware pipeline in registration order:
`express.json` (body parsing, modelled as already done), then the swagger
chain — its mount path `"/"` is a path segment every request path starts
with, so the chain is consulted for every request — and only if the chain
falls through, the five routes and the catch-all. -/
def appDispatch (isAsset : String → Bool) (req : Request) (db : DB)
    (err : Option String) : Response × DB :=
  match swaggerChain isAsset req with
  | some resp => (resp, db)
  | none => routesDispatch req db err

/-- A valid `MovieInput` request body (Swagger component at src/app.js
lines 63-81): `title_file` required, the other string fields and the
boolean `is_new` optional. -/
structure MovieInput where
  title_file : String
  disk : Option String := none
  file : Option String := none
  sub_file : Option String := none
  type_file : Option String := none
  size : Option String := none
  is_new : Option Bool := none
deriving Repr, DecidableEq

/-- The JSON request body a client sends for a `MovieInput`: exactly the
present fields. -/
def MovieInput.toBody (m : MovieInput) : Obj :=
  [("title_file", JVal.str m.title_file)]
  ++ (match m.disk with | some s => [("disk", JVal.str s)] | none => [])
  ++ (match m.file with | some s => [("file", JVal.str s)] | none => [])
  ++ (match m.sub_file with | some s => [("sub_file", JVal.str s)] | none => [])
  ++ (match m.type_file with | some s => [("type_file", JVal.str s)] | none => [])
  ++ (match m.size with | some s => [("size", JVal.str s)] | none => [])
  ++ (match m.is_new with | some b => [("is_new", JVal.bool b)] | none => [])

/-- How an optional string field of the data model reads back from the
table: a field omitted from the input was stored as SQL `NULL` and is
serialized as JSON `null`. -/
def storedOpt : Option String → JVal
  | some s => JVal.str s
  | none => JVal.null

/-! Helper lemmas: the decimal rendering of an id parses back to the id. -/

theorem toDigitsCore_append (b fuel : Nat) :
    ∀ n acc, Nat.toDigitsCore b fuel n acc = Nat.toDigitsCore b fuel n [] ++ acc := by
  induction fuel with
  | zero => intro n acc; simp [Nat.toDigitsCore]
  | succ f ih =>
    intro n acc
    simp only [Nat.toDigitsCore]
    by_cases h : n / b = 0
    · simp [h]
    · simp only [h, if_false]
      rw [ih (n / b) (Nat.digitChar (n % b) :: acc), ih (n / b) [Nat.digitChar (n % b)]]
      simp

theorem digitVal_digitChar (k : Nat) (h : k < 10) :
    digitVal (Nat.digitChar k) = some k := by
  interval_cases k <;> decide

theorem parseDecAux_append (l1 l2 : List Char) (a m : Nat)
    (h : parseDecAux l1 a = some m) :
    parseDecAux (l1 ++ l2) a = parseDecAux l2 m := by
  induction l1 generalizing a with
  | nil => simp [parseDecAux] at h; simp [h]
  | cons c cs ih =>
    simp only [parseDecAux, List.cons_append] at h ⊢
    cases hd : digitVal c with
    | none => simp [hd] at h
    | some d => simp only [hd] at h ⊢; exact ih _ h

theorem parseDecAux_toDigitsCore :
    ∀ fuel n a, n < fuel →
      parseDecAux (Nat.toDigitsCore 10 fuel n []) a =
        some (a * 10 ^ (Nat.toDigitsCore 10 fuel n []).length + n) := by
  intro fuel
  induction fuel with
  | zero => intro n a h; omega
  | succ f ih =>
    intro n a h
    simp only [Nat.toDigitsCore]
    by_cases h0 : n / 10 = 0
    · have hn : n < 10 := by omega
      have hmod : n % 10 = n := Nat.mod_eq_of_lt hn
      simp [h0, parseDecAux, hmod, digitVal_digitChar n hn]
    · simp only [h0, if_false]
      have hge : 10 ≤ n := by
        rcases Nat.lt_or_ge n 10 with hlt | hge
        · exact absurd (Nat.div_eq_of_lt hlt) h0
        · exact hge
      have hdiv : n / 10 < f := by
        have : n / 10 < n := Nat.div_lt_self (by omega) (by norm_num)
        omega
      rw [toDigitsCore_append 10 f (n / 10) [Nat.digitChar (n % 10)]]
      rw [parseDecAux_append _ _ a _ (ih (n / 10) a hdiv)]
      simp only [parseDecAux, digitVal_digitChar (n % 10) (Nat.mod_lt n (by omega))]
      rw [List.length_append]
      have hnm : 10 * (n / 10) + n % 10 = n := Nat.div_add_mod n 10
      simp only [List.length_cons, List.length_nil]
      congr 1
      rw [pow_succ]
      ring_nf
      omega

theorem toDigitsCore_ne_nil (fuel n : Nat) :
    Nat.toDigitsCore 10 (fuel + 1) n [] ≠ [] := by
  simp only [Nat.toDigitsCore]
  by_cases h : n / 10 = 0
  · simp [h]
  · simp only [h, if_false]
    rw [toDigitsCore_append]
    simp

theorem parseDec_repr (n : Nat) : parseDec (Nat.repr n) = some n := by
  have hdata : (Nat.repr n).data = Nat.toDigitsCore 10 (n + 1) n [] := rfl
  rw [parseDec, hdata]
  rw [if_neg (toDigitsCore_ne_nil n n)]
  rw [parseDecAux_toDigitsCore (n + 1) n 0 (Nat.lt_succ_self n)]
  simp

theorem idMatches_repr (n : Nat) (r : Row) :
    idMatches (Nat.repr n) r = true ↔ r.id = n := by
  unfold idMatches
  rw [parseDec_repr, beq_iff_eq]
  exact ⟨fun h => (Option.some.injEq n r.id ▸ h).symm,
         fun h => by rw [h]⟩

/-- A sample stored row used in witness instantiations. -/
def sampleRow : Row :=
  { id := 1, title_file := JVal.str "Inception", disk := JVal.null,
    file := JVal.null, sub_file := JVal.null, type_file := JVal.null,
    size := JVal.null, is_new := JVal.bool false }

/-- A sample one-row table used in witness instantiations. -/
def sampleDB : DB := { rows := [sampleRow], nextId := 2 }

/-- C7: when the database query succeeds, GET /movies responds 200 and
its body is the JSON array of exactly the stored rows, serialized in
storage order, so its length equals the number of rows in the table. -/
theorem c7_list_all_movies (db : DB) :
    (getMovies db none).1.status = 200 ∧
    (getMovies db none).1.body = RBody.arr (db.selectAll.map rowToObj) ∧
    (db.selectAll.map rowToObj).length = db.rows.length := by
  refine ⟨rfl, rfl, ?_⟩
  simp [DB.selectAll]

/-- C8: every one of the five route handlers maps a database error to a
500 response whose `error` field is exactly the underlying error message,
leaving the table unchanged. -/
theorem c8_db_error_maps_to_500 (msg : String) (db : DB) (param : String)
    (body : Obj) :
    getMovies db (some msg) = (errorResponse msg, db) ∧
    getMovieById param db (some msg) = (errorResponse msg, db) ∧
    postMovie body db (some msg) = (errorResponse msg, db) ∧
    putMovie param body db (some msg) = (errorResponse msg, db) ∧
    deleteMovie param db (some msg) = (errorResponse msg, db) ∧
    errorResponse msg =
      { status := 500, body := RBody.obj [("error", JVal.str msg)] } :=
  ⟨rfl, rfl, rfl, rfl, rfl, rfl⟩

/-- C4: with a successful query, GET /movies/:id responds 404 with body
message `Film non trouvé` when no row matches the id, and the status is
404 exactly when the select returns zero rows. -/
theorem c4_get_missing_id_404 (param : String) (db : DB) :
    ((∀ r ∈ db.rows, idMatches param r = false) →
      getMovieById param db none = (notFoundMovie, db)) ∧
    ((getMovieById param db none).1.status = 404 ↔ db.selectById param = []) := by
  constructor
  · intro h
    have hsel : db.selectById param = [] := by
      simp only [DB.selectById, List.filter_eq_nil_iff]
      intro r hr
      simp [h r hr]
    simp [getMovieById, hsel]
  · cases hsel : db.selectById param with
    | nil => simp [getMovieById, hsel, notFoundMovie]
    | cons r rs => simp [getMovieById, hsel]

/-- Witness for C4: a concrete table holding only id 1, queried for id 5. -/
theorem c4_get_missing_id_404_witness :
    (∀ r ∈ sampleDB.rows, idMatches "5" r = false) ∧
    getMovieById "5" sampleDB none = (notFoundMovie, sampleDB) :=
  ⟨by decide, (c4_get_missing_id_404 "5" sampleDB).1 (by decide)⟩

/-- C5: with a successful query, PUT /movies/:id on an id that matches no
row responds 404 with message `Film non trouvé` and leaves the table
(and the AUTO_INCREMENT counter) exactly as it was. -/
theorem c5_put_missing_id_404_no_change (param : String) (body : Obj)
    (db : DB) (h : ∀ r ∈ db.rows, idMatches param r = false) :
    putMovie param body db none = (notFoundMovie, db) := by
  have hcnt : db.rows.countP (idMatches param) = 0 := by
    rw [List.countP_eq_zero]
    intro r hr
    simp [h r hr]
  have hmap : (db.rows.map fun r =>
      if idMatches param r then
        { id := r.id, title_file := sqlVal (objGet body "title_file"),
          disk := sqlVal (objGet body "disk"),
          file := sqlVal (objGet body "file"),
          sub_file := sqlVal (objGet body "sub_file"),
          type_file := sqlVal (objGet body "type_file"),
          size := sqlVal (objGet body "size"),
          is_new := sqlVal (objGet body "is_new") }
      else r) = db.rows := by
    have h1 : (db.rows.map fun r =>
        if idMatches param r then
          { id := r.id, title_file := sqlVal (objGet body "title_file"),
            disk := sqlVal (objGet body "disk"),
            file := sqlVal (objGet body "file"),
            sub_file := sqlVal (objGet body "sub_file"),
            type_file := sqlVal (objGet body "type_file"),
            size := sqlVal (objGet body "size"),
            is_new := sqlVal (objGet body "is_new") }
        else r) = db.rows.map id :=
      List.map_congr_left (fun r hr => by simp [h r hr])
    rw [h1, List.map_id]
  simp [putMovie, DB.updateById, hcnt, hmap]

/-- Witness for C5: updating id 5 in a concrete table holding only id 1. -/
theorem c5_put_missing_id_404_no_change_witness :
    (∀ r ∈ sampleDB.rows, idMatches "5" r = false) ∧
    putMovie "5" [("title_file", JVal.str "New")] sampleDB none =
      (notFoundMovie, sampleDB) :=
  ⟨by decide,
   c5_put_missing_id_404_no_change "5" [("title_file", JVal.str "New")]
     sampleDB (by decide)⟩

/-- C6: with successful queries, DELETE /movies/:id on an id present in
the table responds 200 with message `Film supprimé avec succès`, removes
every row with that id, and a subsequent GET /movies/:id answers 404 with
message `Film non trouvé`. -/
theorem c6_delete_then_get_404 (param : String) (db : DB)
    (h : ∃ r ∈ db.rows, idMatches param r = true) :
    deleteMovie param db none =
      ({ status := 200,
         body := RBody.obj [("message", JVal.str "Film supprimé avec succès")] },
       { db with rows := db.rows.filter (fun r => !idMatches param r) }) ∧
    (getMovieById param (deleteMovie param db none).2 none).1 = notFoundMovie := by
  have hcnt : db.rows.countP (idMatches param) ≠ 0 := by
    have : 0 < db.rows.countP (idMatches param) := List.countP_pos_iff.mpr h
    omega
  have hdel : deleteMovie param db none =
      ({ status := 200,
         body := RBody.obj [("message", JVal.str "Film supprimé avec succès")] },
       { db with rows := db.rows.filter (fun r => !idMatches param r) }) := by
    simp [deleteMovie, DB.deleteById, hcnt]
  refine ⟨hdel, ?_⟩
  rw [hdel]
  have hsel : DB.selectById
      { db with rows := db.rows.filter (fun r => !idMatches param r) } param = [] := by
    simp only [DB.selectById, List.filter_filter, List.filter_eq_nil_iff]
    intro r _
    cases hm : idMatches param r <;> simp [hm]
  simp [getMovieById, hsel]

/-- Witness for C6: deleting id 1 from a concrete table holding id 1. -/
theorem c6_delete_then_get_404_witness :
    (∃ r ∈ sampleDB.rows, idMatches "1" r = true) ∧
    (getMovieById "1" (deleteMovie "1" sampleDB none).2 none).1 = notFoundMovie :=
  ⟨by decide, (c6_delete_then_get_404 "1" sampleDB (by decide)).2⟩

/-- C3 (behaviour of the code at the failing input): because the swagger
middleware chain is mounted at the root and its setup stage answers every
request that reaches it, GET /unknown receives status 200 with the
swagger UI page instead of the catch-all 404; the catch-all that the
route table itself would produce for GET /unknown is exactly 404 with
message `Route non trouvée`, so the registered catch-all is unreachable. -/
theorem c3_unknown_route_gets_swagger_page :
    appDispatch (fun _ => false)
        { method := "GET", path := "/unknown", body := [] }
        { rows := [], nextId := 1 } none =
      ({ status := 200, body := RBody.html "swagger-ui-page" },
       { rows := [], nextId := 1 }) ∧
    routesDispatch { method := "GET", path := "/unknown", body := [] }
        { rows := [], nextId := 1 } none =
      (routeNotFound, { rows := [], nextId := 1 }) ∧
    routeNotFound =
      { status := 404, body := RBody.obj [("message", JVal.str "Route non trouvée")] } ∧
    RBody.html "swagger-ui-page" ≠ routeNotFound.body := by
  refine ⟨rfl, ?_, rfl, by decide⟩
  decide

/-! Helper lemmas about object field lookup. -/

theorem objGet_cons_self (k : String) (v : JVal) (o : Obj)
    (h : ∀ p ∈ o, p.1 ≠ k) : objGet ((k, v) :: o) k = v := by
  have hof : o.filter (fun p => p.1 == k) = [] :=
    List.filter_eq_nil_iff.mpr (fun p hp => by simp [h p hp])
  unfold objGet
  rw [List.filter_cons]
  simp [hof]

theorem objGet_cons_ne (k k' : String) (v : JVal) (o : Obj) (h : k ≠ k') :
    objGet ((k, v) :: o) k' = objGet o k' := by
  unfold objGet
  rw [List.filter_cons]
  simp [h]

theorem objGet_cons_override (k : String) (v : JVal) (o : Obj)
    (h : o.filter (fun p => p.1 == k) ≠ []) :
    objGet ((k, v) :: o) k = objGet o k := by
  unfold objGet
  rw [List.filter_cons]
  simp only [beq_self_eq_true, if_true]
  cases hf : o.filter (fun p => p.1 == k) with
  | nil => exact absurd hf h
  | cons q qs => rw [List.getLast?_cons_cons]

/-- C2 fails as stated: the success response is built as the object
literal spreading the request body after the generated id, so a request
body that itself contains an `id` field overrides the generated id in the
echoed 201 body. At this concrete input the row is inserted under the
generated id 1, yet the response's `id` field is 999. -/
theorem c2_body_id_overrides_generated_counterexample :
    (postMovie [("title_file", JVal.str "A"), ("id", JVal.num 999)]
        { rows := [], nextId := 1 } none).1.status = 201 ∧
    ((postMovie [("title_file", JVal.str "A"), ("id", JVal.num 999)]
        { rows := [], nextId := 1 } none).2).rows.map Row.id = [1] ∧
    respField (postMovie [("title_file", JVal.str "A"), ("id", JVal.num 999)]
        { rows := [], nextId := 1 } none).1 "id" = JVal.num 999 ∧
    respField (postMovie [("title_file", JVal.str "A"), ("id", JVal.num 999)]
        { rows := [], nextId := 1 } none).1 "id" ≠ JVal.num 1 := by
  refine ⟨rfl, rfl, by decide, by decide⟩

/-- C2 (amended): for every POST request that succeeds at the database
layer and whose body does not itself contain an `id` field, the response
has status 201, its body is the request body together with `id` set to
the id generated by storage, its `id` field reads as that generated id,
and the inserted row carries the generated id. A body-supplied `id`
field instead overrides the generated id in the echoed response. -/
theorem c2_post_201_with_generated_id (body : Obj) (db : DB)
    (h : ∀ p ∈ body, p.1 ≠ "id") :
    (postMovie body db none).1.status = 201 ∧
    (postMovie body db none).1.body =
      RBody.obj (("id", JVal.num db.nextId) :: body) ∧
    respField (postMovie body db none).1 "id" = JVal.num db.nextId ∧
    (postMovie body db none).2.rows =
      db.rows ++
        [{ id := db.nextId,
           title_file := sqlVal (objGet body "title_file"),
           disk := sqlVal (objGet body "disk"),
           file := sqlVal (objGet body "file"),
           sub_file := sqlVal (objGet body "sub_file"),
           type_file := sqlVal (objGet body "type_file"),
           size := sqlVal (objGet body "size"),
           is_new := sqlVal (jsOr (objGet body "is_new") (JVal.bool false)) }] := by
  refine ⟨rfl, rfl, ?_, rfl⟩
  show objGet (("id", JVal.num (db.nextId : Int)) :: body) "id" = JVal.num db.nextId
  exact objGet_cons_self "id" _ body h

/-- Witness for the amended C2 at a concrete body without an `id` field. -/
theorem c2_post_201_with_generated_id_witness :
    (∀ p ∈ [("title_file", JVal.str "A")], p.1 ≠ "id") ∧
    respField (postMovie [("title_file", JVal.str "A")]
        { rows := [], nextId := 1 } none).1 "id" = JVal.num 1 :=
  ⟨by decide,
   (c2_post_201_with_generated_id [("title_file", JVal.str "A")]
     { rows := [], nextId := 1 } (by decide)).2.2.1⟩

/-- C9: a successful PUT builds its 200 response by echoing the request
body after an `id` key holding the raw path parameter: the body equals
that object literal (nothing is re-read from storage), the `id` field is
the path parameter as a string when the body supplies no `id`, and every
field present in the request body reads back from the response unchanged
— in particular a body-supplied `id` overrides the path parameter. -/
theorem c9_put_success_echoes_body (param : String) (body : Obj) (db : DB)
    (h : ∃ r ∈ db.rows, idMatches param r = true) :
    (putMovie param body db none).1.status = 200 ∧
    (putMovie param body db none).1.body =
      RBody.obj (("id", JVal.str param) :: body) ∧
    ((∀ p ∈ body, p.1 ≠ "id") →
      respField (putMovie param body db none).1 "id" = JVal.str param) ∧
    (∀ k, (∃ p ∈ body, p.1 = k) →
      respField (putMovie param body db none).1 k = objGet body k) := by
  have hcnt : db.rows.countP (idMatches param) ≠ 0 := by
    have : 0 < db.rows.countP (idMatches param) := List.countP_pos_iff.mpr h
    omega
  have hput : putMovie param body db none =
      ({ status := 200, body := RBody.obj (("id", JVal.str param) :: body) },
       (db.updateById param (objGet body "title_file") (objGet body "disk")
         (objGet body "file") (objGet body "sub_file") (objGet body "type_file")
         (objGet body "size") (objGet body "is_new")).2) := by
    simp [putMovie, DB.updateById, hcnt]
  refine ⟨by rw [hput], by rw [hput], ?_, ?_⟩
  · intro hno
    rw [hput]
    exact objGet_cons_self "id" _ body hno
  · intro k hk
    rw [hput]
    show objGet (("id", JVal.str param) :: body) k = objGet body k
    by_cases hid : "id" = k
    · subst hid
      apply objGet_cons_override
      obtain ⟨p, hp, hpk⟩ := hk
      intro hnil
      have : p ∈ body.filter (fun q => q.1 == "id") :=
        List.mem_filter.mpr ⟨hp, by simp [hpk]⟩
      rw [hnil] at this
      exact absurd this (List.not_mem_nil p)
    · exact objGet_cons_ne "id" k _ body hid

/-- Witness for C9: updating id 1 of the sample table with a body that
also carries its own `id` field. -/
theorem c9_put_success_echoes_body_witness :
    (∃ r ∈ sampleDB.rows, idMatches "1" r = true) ∧
    (putMovie "1" [("title_file", JVal.str "B"), ("id", JVal.num 7)]
        sampleDB none).1.body =
      RBody.obj [("id", JVal.str "1"), ("title_file", JVal.str "B"),
                 ("id", JVal.num 7)] ∧
    respField (putMovie "1" [("title_file", JVal.str "B"), ("id", JVal.num 7)]
        sampleDB none).1 "id" = JVal.num 7 :=
  ⟨by decide,
   (c9_put_success_echoes_body "1"
     [("title_file", JVal.str "B"), ("id", JVal.num 7)] sampleDB (by decide)).2.1,
   by
     have := (c9_put_success_echoes_body "1"
       [("title_file", JVal.str "B"), ("id", JVal.num 7)] sampleDB (by decide)).2.2.2
       "id" ⟨("id", JVal.num 7), by decide, rfl⟩
     rw [this]
     decide⟩

/-- C10: for every POST, the value stored in the `is_new` column is the
request's `is_new` coerced by JavaScript logical-or with `false` — so
every falsy supplied value (`false`, `0`, the empty string, `null`, or an
absent field) is stored as `false` — while the echoed 201 body carries
the original supplied value unchanged. -/
theorem c10_post_is_new_coercion (body : Obj) (db : DB) :
    (postMovie body db none).2.rows =
      db.rows ++
        [{ id := db.nextId,
           title_file := sqlVal (objGet body "title_file"),
           disk := sqlVal (objGet body "disk"),
           file := sqlVal (objGet body "file"),
           sub_file := sqlVal (objGet body "sub_file"),
           type_file := sqlVal (objGet body "type_file"),
           size := sqlVal (objGet body "size"),
           is_new := sqlVal (jsOr (objGet body "is_new") (JVal.bool false)) }] ∧
    (truthy (objGet body "is_new") = false →
      sqlVal (jsOr (objGet body "is_new") (JVal.bool false)) = JVal.bool false) ∧
    (postMovie body db none).1.status = 201 ∧
    respField (postMovie body db none).1 "is_new" = objGet body "is_new" := by
  refine ⟨rfl, ?_, rfl, ?_⟩
  · intro hf
    simp [jsOr, hf, sqlVal]
  · show objGet (("id", JVal.num (db.nextId : Int)) :: body) "is_new" =
      objGet body "is_new"
    exact objGet_cons_ne "id" "is_new" _ body (by decide)

/-- Witness for C10 at the falsy supplied value 0: it is stored as
`false` while the response echoes the 0. -/
theorem c10_post_is_new_coercion_witness :
    truthy (objGet [("title_file", JVal.str "A"), ("is_new", JVal.num 0)]
      "is_new") = false ∧
    sqlVal (jsOr (objGet [("title_file", JVal.str "A"), ("is_new", JVal.num 0)]
      "is_new") (JVal.bool false)) = JVal.bool false ∧
    respField (postMovie [("title_file", JVal.str "A"), ("is_new", JVal.num 0)]
        { rows := [], nextId := 1 } none).1 "is_new" = JVal.num 0 :=
  ⟨by decide,
   (c10_post_is_new_coercion [("title_file", JVal.str "A"), ("is_new", JVal.num 0)]
     { rows := [], nextId := 1 }).2.1 (by decide),
   by
     rw [(c10_post_is_new_coercion
       [("title_file", JVal.str "A"), ("is_new", JVal.num 0)]
       { rows := [], nextId := 1 }).2.2.2]
     decide⟩

/-- The JS value a destructured optional string field has: the string
when the client sent the field, `undefined` when it was omitted. -/
def optField : Option String → JVal
  | some s => JVal.str s
  | none => JVal.undef

/-- The JS value a destructured optional boolean field has. -/
def optBoolField : Option Bool → JVal
  | some b => JVal.bool b
  | none => JVal.undef

theorem toBody_fields (m : MovieInput) :
    objGet m.toBody "title_file" = JVal.str m.title_file ∧
    objGet m.toBody "disk" = optField m.disk ∧
    objGet m.toBody "file" = optField m.file ∧
    objGet m.toBody "sub_file" = optField m.sub_file ∧
    objGet m.toBody "type_file" = optField m.type_file ∧
    objGet m.toBody "size" = optField m.size ∧
    objGet m.toBody "is_new" = optBoolField m.is_new ∧
    ∀ p ∈ m.toBody, p.1 ≠ "id" := by
  rcases m with ⟨t, d, f, sf, tf, sz, inew⟩
  cases d <;> cases f <;> cases sf <;> cases tf <;> cases sz <;> cases inew <;>
    simp +decide [MovieInput.toBody, objGet, optField, optBoolField,
      List.filter_cons]

theorem sqlVal_optField (x : Option String) : sqlVal (optField x) = storedOpt x := by
  cases x <;> rfl

theorem sqlVal_is_new_coerced (x : Option Bool) :
    sqlVal (jsOr (optBoolField x) (JVal.bool false)) = JVal.bool (x.getD false) := by
  cases x with
  | none => rfl
  | some b => cases b <;> rfl

/-- C1: for every valid movie input (with `title_file` set), POST /movies
followed by GET /movies/:id with the id the POST returned — rendered in
decimal in the request path — answers 200 with a Movie whose fields equal
the posted input: present string fields read back unchanged, omitted
optional string fields read back as the JSON `null` their stored SQL
`NULL` serializes to, and `is_new` reads back as the posted boolean,
defaulted to `false` when it was omitted. The AUTO_INCREMENT invariant
`db.wf` guarantees the freshly generated id belongs to no other row. -/
theorem c1_post_then_get_roundtrip (m : MovieInput) (db : DB) (hwf : db.wf) :
    (postMovie m.toBody db none).1.status = 201 ∧
    respField (postMovie m.toBody db none).1 "id" = JVal.num db.nextId ∧
    (getMovieById (Nat.repr db.nextId) (postMovie m.toBody db none).2 none).1.status = 200 ∧
    respField (getMovieById (Nat.repr db.nextId) (postMovie m.toBody db none).2 none).1
      "id" = JVal.num db.nextId ∧
    respField (getMovieById (Nat.repr db.nextId) (postMovie m.toBody db none).2 none).1
      "title_file" = JVal.str m.title_file ∧
    respField (getMovieById (Nat.repr db.nextId) (postMovie m.toBody db none).2 none).1
      "disk" = storedOpt m.disk ∧
    respField (getMovieById (Nat.repr db.nextId) (postMovie m.toBody db none).2 none).1
      "file" = storedOpt m.file ∧
    respField (getMovieById (Nat.repr db.nextId) (postMovie m.toBody db none).2 none).1
      "sub_file" = storedOpt m.sub_file ∧
    respField (getMovieById (Nat.repr db.nextId) (postMovie m.toBody db none).2 none).1
      "type_file" = storedOpt m.type_file ∧
    respField (getMovieById (Nat.repr db.nextId) (postMovie m.toBody db none).2 none).1
      "size" = storedOpt m.size ∧
    respField (getMovieById (Nat.repr db.nextId) (postMovie m.toBody db none).2 none).1
      "is_new" = JVal.bool (m.is_new.getD false) := by
  obtain ⟨ht, hd, hf, hsf, htf, hsz, hin, hnoid⟩ := toBody_fields m
  have hrow : (postMovie m.toBody db none).2.rows =
      db.rows ++
        [{ id := db.nextId,
           title_file := JVal.str m.title_file,
           disk := storedOpt m.disk,
           file := storedOpt m.file,
           sub_file := storedOpt m.sub_file,
           type_file := storedOpt m.type_file,
           size := storedOpt m.size,
           is_new := JVal.bool (m.is_new.getD false) }] := by
    show db.rows ++
        [{ id := db.nextId,
           title_file := sqlVal (objGet m.toBody "title_file"),
           disk := sqlVal (objGet m.toBody "disk"),
           file := sqlVal (objGet m.toBody "file"),
           sub_file := sqlVal (objGet m.toBody "sub_file"),
           type_file := sqlVal (objGet m.toBody "type_file"),
           size := sqlVal (objGet m.toBody "size"),
           is_new := sqlVal (jsOr (objGet m.toBody "is_new") (JVal.bool false)) }] = _
    rw [ht, hd, hf, hsf, htf, hsz, hin, sqlVal_optField, sqlVal_optField,
      sqlVal_optField, sqlVal_optField, sqlVal_optField, sqlVal_is_new_coerced]
    rfl
  have hsel : DB.selectById (postMovie m.toBody db none).2 (Nat.repr db.nextId) =
      [{ id := db.nextId,
         title_file := JVal.str m.title_file,
         disk := storedOpt m.disk,
         file := storedOpt m.file,
         sub_file := storedOpt m.sub_file,
         type_file := storedOpt m.type_file,
         size := storedOpt m.size,
         is_new := JVal.bool (m.is_new.getD false) }] := by
    unfold DB.selectById
    rw [hrow, List.filter_append]
    have hold : db.rows.filter (idMatches (Nat.repr db.nextId)) = [] := by
      rw [List.filter_eq_nil_iff]
      intro r hr hmat
      have : r.id = db.nextId := (idMatches_repr db.nextId r).mp hmat
      have := hwf r hr
      omega
    have hnew : idMatches (Nat.repr db.nextId)
        { id := db.nextId,
          title_file := JVal.str m.title_file,
          disk := storedOpt m.disk,
          file := storedOpt m.file,
          sub_file := storedOpt m.sub_file,
          type_file := storedOpt m.type_file,
          size := storedOpt m.size,
          is_new := JVal.bool (m.is_new.getD false) } = true :=
      (idMatches_repr db.nextId _).mpr rfl
    rw [hold, List.filter_cons, if_pos hnew]
    rfl
  have hget : getMovieById (Nat.repr db.nextId) (postMovie m.toBody db none).2 none =
      ({ status := 200,
         body := RBody.obj (rowToObj
           { id := db.nextId,
             title_file := JVal.str m.title_file,
             disk := storedOpt m.disk,
             file := storedOpt m.file,
             sub_file := storedOpt m.sub_file,
             type_file := storedOpt m.type_file,
             size := storedOpt m.size,
             is_new := JVal.bool (m.is_new.getD false) }) },
       (postMovie m.toBody db none).2) := by
    unfold getMovieById
    rw [hsel]
  refine ⟨rfl, ?_, ?_, ?_, ?_, ?_, ?_, ?_, ?_, ?_, ?_⟩
  · show objGet (("id", JVal.num (db.nextId : Int)) :: m.toBody) "id" =
      JVal.num db.nextId
    exact objGet_cons_self "id" _ m.toBody hnoid
  all_goals rw [hget]
  all_goals simp +decide [respField, rowToObj, objGet, List.filter_cons]

/-- Witness for C1: posting a concrete input with some fields omitted
into the empty table, then reading id 1 back. -/
theorem c1_post_then_get_roundtrip_witness :
    DB.wf { rows := [], nextId := 1 } ∧
    respField (getMovieById (Nat.repr 1)
        (postMovie (MovieInput.toBody
          { title_file := "Inception", disk := some "Disque1", is_new := some true })
          { rows := [], nextId := 1 } none).2 none).1 "title_file" =
      JVal.str "Inception" ∧
    respField (getMovieById (Nat.repr 1)
        (postMovie (MovieInput.toBody
          { title_file := "Inception", disk := some "Disque1", is_new := some true })
          { rows := [], nextId := 1 } none).2 none).1 "file" = JVal.null ∧
    respField (getMovieById (Nat.repr 1)
        (postMovie (MovieInput.toBody
          { title_file := "Inception", disk := some "Disque1", is_new := some true })
          { rows := [], nextId := 1 } none).2 none).1 "is_new" = JVal.bool true :=
  ⟨by simp [DB.wf],
   (c1_post_then_get_roundtrip
     { title_file := "Inception", disk := some "Disque1", is_new := some true }
     { rows := [], nextId := 1 } (by simp [DB.wf])).2.2.2.2.1,
   (c1_post_then_get_roundtrip
     { title_file := "Inception", disk := some "Disque1", is_new := some true }
     { rows := [], nextId := 1 } (by simp [DB.wf])).2.2.2.2.2.2.1,
   (c1_post_then_get_roundtrip
     { title_file := "Inception", disk := some "Disque1", is_new := some true }
     { rows := [], nextId := 1 } (by simp [DB.wf])).2.2.2.2.2.2.2.2.2.2⟩

end MoviesApi
